import Mathlib

/-!
Verification of the orbital-mechanics engine of the solar-system simulator
(`script.js`, configuration constants from the unnamed config source file).

The engine works on JavaScript numbers.  We embed them as an idealized
IEEE-style carrier: an exact real number, positive or negative infinity, or
NaN (`JSNum`).  Arithmetic, comparison, `Math.sin`, `Math.cos`, `Math.sqrt`,
`Math.abs`, `Math.min`, `Math.max`, the remainder operator and truthiness are
given their JavaScript semantics on this carrier, with the finite arithmetic
exact (no rounding, no overflow).

On top of that carrier we translate, statement by statement, the engine
functions `solveKeplersEquation`, `calculateOrbitalPosition`,
`calculateOrbitalVelocity`, the per-planet part of `initializePlanets`, and
`update`, together with the configuration constants `G`, `AU`, `SOLAR_MASS`.
`try`/`catch` blocks whose `catch` returns a fallback value are translated by
returning the fallback at each `throw` site; rendering, DOM and input code is
out of scope.
-/

noncomputable section
open Classical

namespace Kepler

/-- A JavaScript number: NaN, +Infinity, -Infinity, or a finite value
(modelled as an exact real). -/
inductive JSNum where
  | nan
  | inf
  | ninf
  | fin (x : ℝ)

namespace JSNum

/-- JavaScript `isNaN`. -/
def isNaN : JSNum → Prop
  | nan => True
  | _ => False

/-- JavaScript `isFinite`. -/
def isFinite : JSNum → Prop
  | fin _ => True
  | _ => False

/-- JavaScript truthiness of a number: `NaN` and `0` are falsy. -/
def truthy : JSNum → Prop
  | nan => False
  | fin x => x ≠ 0
  | _ => True

/-- JavaScript unary minus. -/
def neg : JSNum → JSNum
  | nan => nan
  | inf => ninf
  | ninf => inf
  | fin x => fin (-x)

/-- JavaScript addition. -/
def add : JSNum → JSNum → JSNum
  | nan, _ => nan
  | _, nan => nan
  | inf, ninf => nan
  | ninf, inf => nan
  | inf, _ => inf
  | ninf, _ => ninf
  | _, inf => inf
  | _, ninf => ninf
  | fin x, fin y => fin (x + y)

/-- JavaScript subtraction. -/
def sub (a b : JSNum) : JSNum := add a (neg b)

/-- JavaScript multiplication. -/
def mul : JSNum → JSNum → JSNum
  | nan, _ => nan
  | _, nan => nan
  | inf, inf => inf
  | inf, ninf => ninf
  | ninf, inf => ninf
  | ninf, ninf => inf
  | inf, fin y => if y = 0 then nan else if 0 < y then inf else ninf
  | ninf, fin y => if y = 0 then nan else if 0 < y then ninf else inf
  | fin x, inf => if x = 0 then nan else if 0 < x then inf else ninf
  | fin x, ninf => if x = 0 then nan else if 0 < x then ninf else inf
  | fin x, fin y => fin (x * y)

/-- JavaScript division (a single zero stands for IEEE `+0`). -/
def div : JSNum → JSNum → JSNum
  | nan, _ => nan
  | _, nan => nan
  | inf, inf => nan
  | inf, ninf => nan
  | ninf, inf => nan
  | ninf, ninf => nan
  | inf, fin y => if 0 ≤ y then inf else ninf
  | ninf, fin y => if 0 ≤ y then ninf else inf
  | fin _, inf => fin 0
  | fin _, ninf => fin 0
  | fin x, fin y =>
    if y = 0 then (if x = 0 then nan else if 0 < x then inf else ninf)
    else fin (x / y)

/-- JavaScript `Math.abs`. -/
def abs : JSNum → JSNum
  | nan => nan
  | inf => inf
  | ninf => inf
  | fin x => fin |x|

/-- JavaScript `Math.sqrt`. -/
def sqrt : JSNum → JSNum
  | nan => nan
  | inf => inf
  | ninf => nan
  | fin x => if x < 0 then nan else fin (Real.sqrt x)

/-- JavaScript `Math.sin`. -/
def sin : JSNum → JSNum
  | fin x => fin (Real.sin x)
  | _ => nan

/-- JavaScript `Math.cos`. -/
def cos : JSNum → JSNum
  | fin x => fin (Real.cos x)
  | _ => nan

/-- JavaScript `<` (false whenever an operand is NaN). -/
def lt : JSNum → JSNum → Prop
  | nan, _ => False
  | _, nan => False
  | ninf, ninf => False
  | ninf, _ => True
  | _, ninf => False
  | inf, _ => False
  | fin _, inf => True
  | fin x, fin y => x < y

/-- JavaScript `<=` (false whenever an operand is NaN). -/
def le : JSNum → JSNum → Prop
  | nan, _ => False
  | _, nan => False
  | ninf, _ => True
  | _, ninf => False
  | _, inf => True
  | inf, _ => False
  | fin x, fin y => x ≤ y

/-- JavaScript `Math.max` on two arguments. -/
def max : JSNum → JSNum → JSNum
  | nan, _ => nan
  | _, nan => nan
  | inf, _ => inf
  | _, inf => inf
  | ninf, b => b
  | a, ninf => a
  | fin x, fin y => fin (Max.max x y)

/-- JavaScript `Math.min` on two arguments. -/
def min : JSNum → JSNum → JSNum
  | nan, _ => nan
  | _, nan => nan
  | ninf, _ => ninf
  | _, ninf => ninf
  | inf, b => b
  | a, inf => a
  | fin x, fin y => fin (Min.min x y)

/-- Real-number truncation toward zero, used by the JavaScript `%` operator. -/
def rtrunc (t : ℝ) : ℝ := if 0 ≤ t then (⌊t⌋ : ℤ) else (⌈t⌉ : ℤ)

/-- JavaScript remainder operator `%` (sign of the dividend). -/
def mod : JSNum → JSNum → JSNum
  | nan, _ => nan
  | _, nan => nan
  | inf, _ => nan
  | ninf, _ => nan
  | fin _, inf => fin 0
  | fin _, ninf => fin 0
  | fin x, fin y => if y = 0 then nan else fin (x - y * rtrunc (x / y))

instance : Neg JSNum := ⟨neg⟩
instance : Add JSNum := ⟨add⟩
instance : Sub JSNum := ⟨sub⟩
instance : Mul JSNum := ⟨mul⟩
instance : Div JSNum := ⟨div⟩
instance : LT JSNum := ⟨lt⟩
instance : LE JSNum := ⟨le⟩

@[simp] theorem isNaN_nan : (nan).isNaN = True := rfl
@[simp] theorem isNaN_inf : (inf).isNaN = False := rfl
@[simp] theorem isNaN_ninf : (ninf).isNaN = False := rfl
@[simp] theorem isNaN_fin (x : ℝ) : (fin x).isNaN = False := rfl

@[simp] theorem isFinite_nan : (nan).isFinite = False := rfl
@[simp] theorem isFinite_inf : (inf).isFinite = False := rfl
@[simp] theorem isFinite_ninf : (ninf).isFinite = False := rfl
@[simp] theorem isFinite_fin (x : ℝ) : (fin x).isFinite = True := rfl

@[simp] theorem truthy_nan : (nan).truthy = False := rfl
@[simp] theorem truthy_inf : (inf).truthy = True := rfl
@[simp] theorem truthy_ninf : (ninf).truthy = True := rfl
@[simp] theorem truthy_fin (x : ℝ) : (fin x).truthy = (x ≠ 0) := rfl

@[simp] theorem neg_fin (x : ℝ) : -(fin x) = fin (-x) := rfl

@[simp] theorem fin_add_fin (x y : ℝ) : fin x + fin y = fin (x + y) := rfl
@[simp] theorem fin_sub_fin (x y : ℝ) : fin x - fin y = fin (x - y) := by
  show sub (fin x) (fin y) = fin (x - y)
  simp [sub, add, neg, sub_eq_add_neg]

@[simp] theorem fin_mul_fin (x y : ℝ) : fin x * fin y = fin (x * y) := rfl
@[simp] theorem nan_div (a : JSNum) : nan / a = nan := by
  show div nan a = nan; cases a <;> rfl
@[simp] theorem div_nan (a : JSNum) : a / nan = nan := by
  show div a nan = nan; cases a <;> rfl
@[simp] theorem nan_mul (a : JSNum) : nan * a = nan := by
  show mul nan a = nan; cases a <;> rfl
@[simp] theorem mul_nan (a : JSNum) : a * nan = nan := by
  show mul a nan = nan; cases a <;> rfl
@[simp] theorem nan_sub (a : JSNum) : nan - a = nan := by
  show add nan (neg a) = nan; cases a <;> rfl
@[simp] theorem sub_nan (a : JSNum) : a - nan = nan := by
  show add a (neg nan) = nan; cases a <;> rfl
@[simp] theorem inf_sub_nan : inf - nan = nan := rfl

theorem inf_mul_fin_pos {y : ℝ} (hy : 0 < y) : inf * fin y = inf := by
  show mul inf (fin y) = inf
  simp [mul, hy.ne', hy]

theorem inf_mul_fin_zero : inf * fin 0 = nan := by
  show mul inf (fin 0) = nan
  simp [mul]

theorem fin_div_fin {y : ℝ} (x : ℝ) (hy : y ≠ 0) : fin x / fin y = fin (x / y) := by
  show div (fin x) (fin y) = fin (x / y)
  simp [div, hy]

theorem sqrt_fin {x : ℝ} (hx : 0 ≤ x) : (fin x).sqrt = fin (Real.sqrt x) := by
  simp [sqrt, not_lt.mpr hx]

@[simp] theorem abs_fin (x : ℝ) : (fin x).abs = fin |x| := rfl
@[simp] theorem abs_nan : (nan).abs = nan := rfl
@[simp] theorem sin_fin (x : ℝ) : (fin x).sin = fin (Real.sin x) := rfl
@[simp] theorem cos_fin (x : ℝ) : (fin x).cos = fin (Real.cos x) := rfl
@[simp] theorem sin_nan : (nan).sin = nan := rfl
@[simp] theorem cos_nan : (nan).cos = nan := rfl
@[simp] theorem sin_inf : (inf).sin = nan := rfl
@[simp] theorem cos_inf : (inf).cos = nan := rfl
@[simp] theorem sin_ninf : (ninf).sin = nan := rfl
@[simp] theorem cos_ninf : (ninf).cos = nan := rfl
@[simp] theorem sqrt_nan : (nan).sqrt = nan := rfl

@[simp] theorem fin_lt_fin (x y : ℝ) : (fin x < fin y) = (x < y) := rfl
@[simp] theorem fin_le_fin (x y : ℝ) : (fin x ≤ fin y) = (x ≤ y) := rfl
@[simp] theorem not_nan_lt (a : JSNum) : (nan < a) = False := by
  show lt nan a = False; cases a <;> rfl
@[simp] theorem not_lt_nan (a : JSNum) : (a < nan) = False := by
  show lt a nan = False; cases a <;> rfl
@[simp] theorem not_nan_le (a : JSNum) : (nan ≤ a) = False := by
  show le nan a = False; cases a <;> rfl
@[simp] theorem not_le_nan (a : JSNum) : (a ≤ nan) = False := by
  show le a nan = False; cases a <;> rfl
@[simp] theorem inf_le_fin (y : ℝ) : (inf ≤ fin y) = False := rfl
@[simp] theorem fin_le_inf (x : ℝ) : (fin x ≤ inf) = True := rfl
@[simp] theorem fin_lt_inf (x : ℝ) : (fin x < inf) = True := rfl
@[simp] theorem inf_lt_fin (y : ℝ) : (inf < fin y) = False := rfl
@[simp] theorem ninf_le_fin (y : ℝ) : (ninf ≤ fin y) = True := rfl
@[simp] theorem fin_le_ninf (x : ℝ) : (fin x ≤ ninf) = False := rfl
@[simp] theorem fin_lt_ninf (x : ℝ) : (fin x < ninf) = False := rfl
@[simp] theorem ninf_lt_fin (y : ℝ) : (ninf < fin y) = True := rfl

@[simp] theorem fin_inj (x y : ℝ) : (fin x = fin y) ↔ x = y := by
  constructor
  · intro h; cases h; rfl
  · intro h; rw [h]

end JSNum

open JSNum

/-- Gravitational constant from the configuration file,
`const G = 6.67430e-11`. -/
def G : JSNum := .fin 6.67430e-11

/-- Astronomical unit in meters from the configuration file,
`const AU = 1.496e11`. -/
def AU : JSNum := .fin 1.496e11

/-- Solar mass from the configuration file, `const SOLAR_MASS = 1.989e30`. -/
def SOLAR_MASS : JSNum := .fin 1.989e30

/-- The engine-relevant numeric fields of a `PLANETS` entry
(`name`, display `radius`, `color` and `mass` are not read by the
position/velocity/update code). -/
structure Planet where
  semiMajorAxis : JSNum
  eccentricity : JSNum
  period : JSNum

/-- A `{x, y}` pair as produced by `calculateOrbitalPosition` and stored in
`position`, `velocity` and the trail. -/
structure Vec2 where
  x : JSNum
  y : JSNum

/-- A per-planet entry of `this.planetStates`. -/
structure BodyState where
  data : Planet
  meanAnomaly : JSNum
  position : Vec2
  velocity : Vec2
  trail : List Vec2

/-- The fields of the `SolarSystem` instance that the `update`
tick reads and writes (rendering and interaction fields are out of scope).
The planet map is kept in `Object.keys` iteration order as a list;
`maxTrailLength` is a configuration count. -/
structure SimState where
  timeSpeed : JSNum
  currentTime : JSNum
  isPaused : Bool
  showTrails : Bool
  maxTrailLength : ℕ
  bodies : List BodyState

/-- The Newton-Raphson `while` loop of `solveKeplersEquation`, with the
remaining iteration budget (`maxIterations - iterations`) as fuel.  The loop
condition `Math.abs(delta) > tolerance && iterations < maxIterations` is
checked before every pass; inside a pass the denominator `1 - e*cos(E)` is
tested against `1e-10` and on a near-zero denominator the loop breaks,
returning the current `E`. -/
def kepLoop (M e tol : JSNum) : JSNum → JSNum → ℕ → JSNum
  | E, _, 0 => E
  | E, delta, fuel + 1 =>
    if tol < delta.abs then
      let denom := JSNum.fin 1 - e * E.cos
      if denom.abs < JSNum.fin 1e-10 then E
      else
        let d := (E - e * E.sin - M) / denom
        kepLoop M e tol (E - d) d fuel
    else E

/-- The eccentricity-clamping step of `solveKeplersEquation`:
`if (e < 0 || e >= 1) e = Math.max(0, Math.min(0.99, e))`. -/
def clampEcc (e : JSNum) : JSNum :=
  if e < JSNum.fin 0 ∨ JSNum.fin 1 ≤ e then
    JSNum.max (.fin 0) (JSNum.min (.fin 0.99) e)
  else e

/-- `solveKeplersEquation(M, e, tolerance = 1e-6)`: returns 0 if either input
is NaN, clamps an out-of-range eccentricity, then runs the Newton-Raphson
loop from the initial guess `E = M`, `delta = 1`, `maxIterations = 100`. -/
def solveKeplersEquation (M e : JSNum) (tol : JSNum := .fin 1e-6) : JSNum :=
  if M.isNaN ∨ e.isNaN then .fin 0
  else kepLoop M (clampEcc e) tol M (.fin 1) 100

/-- The `catch` result of `calculateOrbitalPosition`:
`{ x: planet.semiMajorAxis || 1, y: 0 }`. -/
def fallbackPos (p : Planet) : Vec2 :=
  ⟨if p.semiMajorAxis.truthy then p.semiMajorAxis else .fin 1, .fin 0⟩

/-- `calculateOrbitalPosition(planet, meanAnomaly)`: validates the semi-major
axis, eccentricity and mean anomaly (each `throw` lands in the `catch`, which
returns `fallbackPos`), solves Kepler's equation, converts to Cartesian
coordinates `x = a(cos E - e)`, `y = a*sqrt(1-e^2)*sin E`, and falls back if
the result is non-finite. -/
def calculateOrbitalPosition (p : Planet) (meanAnomaly : JSNum) : Vec2 :=
  let a := p.semiMajorAxis
  let e := p.eccentricity
  if a.isNaN ∨ a ≤ JSNum.fin 0 then fallbackPos p
  else if e.isNaN ∨ e < JSNum.fin 0 ∨ JSNum.fin 1 ≤ e then fallbackPos p
  else if meanAnomaly.isNaN then fallbackPos p
  else
    let E := solveKeplersEquation meanAnomaly e
    let x := a * (E.cos - e)
    let y := a * (JSNum.fin 1 - e * e).sqrt * E.sin
    if ¬ x.isFinite ∨ ¬ y.isFinite then fallbackPos p
    else ⟨x, y⟩

/-- `calculateOrbitalVelocity(planet, position)`: vis-viva speed in km/s.
Each `throw` lands in the `catch`, which returns 0. -/
def calculateOrbitalVelocity (p : Planet) (pos : Vec2) : JSNum :=
  let a := p.semiMajorAxis * AU
  let r := (pos.x * pos.x + pos.y * pos.y).sqrt * AU
  if r ≤ JSNum.fin 0 ∨ ¬ r.isFinite then .fin 0
  else if a ≤ JSNum.fin 0 ∨ ¬ a.isFinite then .fin 0
  else
    let vSquared := G * SOLAR_MASS * (JSNum.fin 2 / r - JSNum.fin 1 / a)
    let v := vSquared.abs.sqrt
    if ¬ v.isFinite then .fin 0
    else v / JSNum.fin 1000

/-- The trail maintenance of `update`: `state.trail.push(position)` followed
by `state.trail.shift()` when the length exceeds `maxTrailLength`. -/
def trailStep (maxLen : ℕ) (trail : List Vec2) (pos : Vec2) : List Vec2 :=
  let t := trail ++ [pos]
  if maxLen < t.length then t.tail else t

/-- The per-planet body of the `forEach` in `update`: recompute the mean
anomaly from the current time, the position, the speed and the tangential
velocity vector (kept unchanged when `r = 0` fails the `r > 0` test), and
maintain the trail.  A non-positive or non-finite period skips the planet
(`return` inside the callback). -/
def updateBody (currentTime : JSNum) (maxLen : ℕ) (showTrails : Bool)
    (s : BodyState) : BodyState :=
  let periodInDays := s.data.period * JSNum.fin 365.25
  if periodInDays ≤ JSNum.fin 0 ∨ ¬ periodInDays.isFinite then s
  else
    let meanAnomaly :=
      JSNum.mod (JSNum.fin 2 * JSNum.fin Real.pi * currentTime / periodInDays)
        (JSNum.fin 2 * JSNum.fin Real.pi)
    let pos := calculateOrbitalPosition s.data meanAnomaly
    let vmag := calculateOrbitalVelocity s.data pos
    let r := (pos.x * pos.x + pos.y * pos.y).sqrt
    let vel :=
      if JSNum.fin 0 < r then Vec2.mk (-pos.y / r * vmag) (pos.x / r * vmag)
      else s.velocity
    let tr := if showTrails then trailStep maxLen s.trail pos else []
    { s with meanAnomaly := meanAnomaly, position := pos, velocity := vel,
             trail := tr }

/-- `update(deltaTime)`: no-op when paused or when `deltaTime` fails
`!isFinite(deltaTime) || isNaN(deltaTime)`; otherwise advances
`currentTime += deltaTime * timeSpeed` and refreshes every planet. -/
def update (st : SimState) (deltaTime : JSNum) : SimState :=
  if st.isPaused then st
  else if ¬ deltaTime.isFinite ∨ deltaTime.isNaN then st
  else
    let t := st.currentTime + deltaTime * st.timeSpeed
    { st with
      currentTime := t,
      bodies := st.bodies.map (updateBody t st.maxTrailLength st.showTrails) }

/-- The state `initializePlanets` builds for one planet before computing its
initial position: zero velocity, empty trail, then
`position = calculateOrbitalPosition(planet, meanAnomaly)`. -/
def mkBody (p : Planet) (M : JSNum) : BodyState :=
  { data := p, meanAnomaly := M,
    position := calculateOrbitalPosition p M,
    velocity := ⟨.fin 0, .fin 0⟩, trail := [] }

/-- The per-planet body of the `forEach` in `initializePlanets`: a planet
whose period fails `!planet.period || planet.period <= 0`, or whose period in
days fails its validity check when a positive time offset is used, throws and
is skipped (`none`); otherwise its state is created with the mean anomaly
computed from the time offset. -/
def initPlanetState (timeOffset : JSNum) (p : Planet) : Option BodyState :=
  if ¬ p.period.truthy ∨ p.period ≤ JSNum.fin 0 then none
  else if JSNum.fin 0 < timeOffset then
    let periodInDays := p.period * JSNum.fin 365.25
    if periodInDays ≤ JSNum.fin 0 ∨ ¬ periodInDays.isFinite then none
    else
      some (mkBody p
        (JSNum.mod (JSNum.fin 2 * JSNum.fin Real.pi * timeOffset / periodInDays)
          (JSNum.fin 2 * JSNum.fin Real.pi)))
  else some (mkBody p (.fin 0))

/-- `initializePlanets` over the configured planet list (the time offset is
the externally computed days-since-epoch value, 0 unless starting at the
current date): each planet is initialized independently and failures are
skipped. -/
def initializePlanets (timeOffset : JSNum) (ps : List Planet) : List BodyState :=
  ps.filterMap (initPlanetState timeOffset)

/-! ### Evaluation lemmas for the Newton-Raphson loop -/

theorem kepLoop_exit (M e tol E delta : JSNum) (fuel : ℕ)
    (h : ¬ tol < delta.abs) : kepLoop M e tol E delta fuel = E := by
  cases fuel with
  | zero => rfl
  | succ n => rw [kepLoop, if_neg h]

theorem kepLoop_step (M e tol E delta : JSNum) (fuel : ℕ)
    (h : tol < delta.abs) :
    kepLoop M e tol E delta (fuel + 1) =
      if (JSNum.fin 1 - e * E.cos).abs < JSNum.fin 1e-10 then E
      else
        kepLoop M e tol
          (E - (E - e * E.sin - M) / (JSNum.fin 1 - e * E.cos))
          ((E - e * E.sin - M) / (JSNum.fin 1 - e * E.cos)) fuel := by
  rw [kepLoop, if_pos h]

theorem clampEcc_valid {e : ℝ} (he0 : 0 ≤ e) (he1 : e < 1) :
    clampEcc (.fin e) = .fin e := by
  rw [clampEcc, if_neg]
  simp only [fin_lt_fin, fin_le_fin, not_or, not_lt, not_le]
  exact ⟨he0, he1⟩

/-- For a valid eccentricity, the solver at mean anomaly 0 exits after one
Newton step (or after the near-zero-denominator break when `e` is within
`1e-10` of 1) with the exact eccentric anomaly `E = 0`. -/
theorem solve_at_M_zero {e : ℝ} (he0 : 0 ≤ e) (he1 : e < 1) :
    solveKeplersEquation (.fin 0) (.fin e) = .fin 0 := by
  rw [solveKeplersEquation, if_neg (by simp), clampEcc_valid he0 he1]
  have h100 : (100 : ℕ) = 99 + 1 := rfl
  rw [h100, kepLoop_step _ _ _ _ _ _ (by simp; norm_num)]
  by_cases hg : (JSNum.fin 1 - JSNum.fin e * (JSNum.fin 0).cos).abs <
      JSNum.fin 1e-10
  · rw [if_pos hg]
  · rw [if_neg hg]
    simp only [cos_fin, sin_fin, fin_mul_fin, fin_sub_fin] at hg ⊢
    simp only [abs_fin, fin_lt_fin, not_lt] at hg
    have hden : 1 - e * Real.cos 0 ≠ 0 := by
      intro h0
      rw [h0] at hg
      simp at hg
      norm_num at hg
    rw [fin_div_fin _ hden, fin_sub_fin]
    rw [kepLoop_exit]
    · rw [fin_inj]
      rw [Real.sin_zero]
      ring
    · simp only [abs_fin, fin_lt_fin, not_lt]
      rw [Real.sin_zero]
      simp
      norm_num

/-- For a valid eccentricity, the solver at mean anomaly pi exits after one
Newton step with the exact eccentric anomaly `E = pi`. -/
theorem solve_at_M_pi {e : ℝ} (he0 : 0 ≤ e) (he1 : e < 1) :
    solveKeplersEquation (.fin Real.pi) (.fin e) = .fin Real.pi := by
  rw [solveKeplersEquation, if_neg (by simp), clampEcc_valid he0 he1]
  have h100 : (100 : ℕ) = 99 + 1 := rfl
  rw [h100, kepLoop_step _ _ _ _ _ _ (by simp; norm_num)]
  rw [if_neg]
  · simp only [cos_fin, sin_fin, fin_mul_fin, fin_sub_fin]
    have hden : 1 - e * Real.cos Real.pi ≠ 0 := by
      rw [Real.cos_pi]
      nlinarith
    rw [fin_div_fin _ hden, fin_sub_fin]
    rw [kepLoop_exit]
    · rw [fin_inj, Real.sin_pi]
      ring
    · simp only [abs_fin, fin_lt_fin, not_lt, Real.sin_pi]
      rw [Real.cos_pi]
      simp
      norm_num
  · simp only [cos_fin, fin_mul_fin, fin_sub_fin, abs_fin, fin_lt_fin, not_lt,
      Real.cos_pi]
    rw [abs_of_pos (by nlinarith)]
    nlinarith

/-- For eccentricity zero the solver returns the mean anomaly exactly. -/
theorem solve_zero_ecc (M : ℝ) :
    solveKeplersEquation (.fin M) (.fin 0) = .fin M := by
  rw [solveKeplersEquation, if_neg (by simp),
    clampEcc_valid le_rfl (by norm_num)]
  have h100 : (100 : ℕ) = 99 + 1 := rfl
  rw [h100, kepLoop_step _ _ _ _ _ _ (by simp; norm_num)]
  rw [if_neg]
  · simp only [cos_fin, sin_fin, fin_mul_fin, fin_sub_fin]
    have hden : 1 - 0 * Real.cos M ≠ 0 := by norm_num
    rw [fin_div_fin _ hden, fin_sub_fin]
    rw [kepLoop_exit]
    · rw [fin_inj]
      ring
    · simp only [abs_fin, fin_lt_fin, not_lt]
      have : (M - 0 * Real.sin M - M) / (1 - 0 * Real.cos M) = 0 := by ring
      rw [this]
      norm_num
  · simp only [cos_fin, fin_mul_fin, fin_sub_fin, abs_fin, fin_lt_fin, not_lt]
    have : |1 - 0 * Real.cos M| = 1 := by rw [zero_mul]; norm_num
    rw [this]
    norm_num

/-! ### Evaluation lemmas for the position computation -/

theorem calcPos_at_M_zero {a e : ℝ} (per : JSNum) (ha : 0 < a) (he0 : 0 ≤ e)
    (he1 : e < 1) :
    calculateOrbitalPosition ⟨.fin a, .fin e, per⟩ (.fin 0) =
      ⟨.fin (a * (1 - e)), .fin 0⟩ := by
  rw [calculateOrbitalPosition]
  rw [if_neg (by simp only [isNaN_fin]; simp; linarith)]
  rw [if_neg (by simp only [isNaN_fin]; simp; constructor <;> linarith)]
  rw [if_neg (by simp)]
  simp only [solve_at_M_zero he0 he1, cos_fin, sin_fin, fin_mul_fin,
    fin_sub_fin]
  rw [sqrt_fin (by nlinarith)]
  simp only [fin_mul_fin]
  rw [if_neg (by simp)]
  rw [Vec2.mk.injEq, fin_inj, fin_inj]
  constructor
  · rw [Real.cos_zero]
  · rw [Real.sin_zero]
    ring

theorem calcPos_at_M_pi {a e : ℝ} (per : JSNum) (ha : 0 < a) (he0 : 0 ≤ e)
    (he1 : e < 1) :
    calculateOrbitalPosition ⟨.fin a, .fin e, per⟩ (.fin Real.pi) =
      ⟨.fin (-(a * (1 + e))), .fin 0⟩ := by
  rw [calculateOrbitalPosition]
  rw [if_neg (by simp only [isNaN_fin]; simp; linarith)]
  rw [if_neg (by simp only [isNaN_fin]; simp; constructor <;> linarith)]
  rw [if_neg (by simp)]
  simp only [solve_at_M_pi he0 he1, cos_fin, sin_fin, fin_mul_fin, fin_sub_fin]
  rw [sqrt_fin (by nlinarith)]
  simp only [fin_mul_fin]
  rw [if_neg (by simp)]
  rw [Vec2.mk.injEq, fin_inj, fin_inj]
  constructor
  · rw [Real.cos_pi]
    ring
  · rw [Real.sin_pi]
    ring

/-- C2: for every valid orbital elements (semi-major axis `a > 0`,
eccentricity `0 ≤ e < 1`), `calculateOrbitalPosition` at mean anomaly `M = 0`
returns the perihelion point `(a(1-e), 0)` and at `M = pi` returns the
aphelion point `(-a(1+e), 0)`. -/
theorem C2_perihelion_aphelion (a e : ℝ) (per : JSNum) (ha : 0 < a)
    (he0 : 0 ≤ e) (he1 : e < 1) :
    calculateOrbitalPosition ⟨.fin a, .fin e, per⟩ (.fin 0) =
        ⟨.fin (a * (1 - e)), .fin 0⟩ ∧
      calculateOrbitalPosition ⟨.fin a, .fin e, per⟩ (.fin Real.pi) =
        ⟨.fin (-(a * (1 + e))), .fin 0⟩ :=
  ⟨calcPos_at_M_zero per ha he0 he1, calcPos_at_M_pi per ha he0 he1⟩

/-- Witness for C2 at the spec's Earth scenario `a = 1.0`, `e = 0.017`:
perihelion `(0.983, 0)` and aphelion `(-1.017, 0)`. -/
theorem C2_perihelion_aphelion_witness :
    calculateOrbitalPosition ⟨.fin 1, .fin 0.017, .fin 1⟩ (.fin 0) =
        ⟨.fin 0.983, .fin 0⟩ ∧
      calculateOrbitalPosition ⟨.fin 1, .fin 0.017, .fin 1⟩ (.fin Real.pi) =
        ⟨.fin (-1.017), .fin 0⟩ := by
  have h := C2_perihelion_aphelion 1 0.017 (.fin 1) (by norm_num) (by norm_num)
    (by norm_num)
  refine ⟨?_, ?_⟩
  · rw [h.1]
    norm_num
  · rw [h.2]
    norm_num

/-- C6: for eccentricity `e = 0` and any finite mean anomaly, the solver
returns `E = M` exactly, the position is `(a cos M, a sin M)`, and its
Euclidean norm equals the semi-major axis. -/
theorem C6_circular (a M : ℝ) (per : JSNum) (ha : 0 < a) :
    solveKeplersEquation (.fin M) (.fin 0) = .fin M ∧
      calculateOrbitalPosition ⟨.fin a, .fin 0, per⟩ (.fin M) =
        ⟨.fin (a * Real.cos M), .fin (a * Real.sin M)⟩ ∧
      Real.sqrt ((a * Real.cos M) * (a * Real.cos M) +
        (a * Real.sin M) * (a * Real.sin M)) = a := by
  refine ⟨solve_zero_ecc M, ?_, ?_⟩
  · rw [calculateOrbitalPosition]
    rw [if_neg (by simp only [isNaN_fin]; simp; linarith)]
    rw [if_neg (by simp only [isNaN_fin]; simp)]
    rw [if_neg (by simp)]
    simp only [solve_zero_ecc M, cos_fin, sin_fin, fin_mul_fin, fin_sub_fin]
    rw [sqrt_fin (by norm_num)]
    simp only [fin_mul_fin]
    rw [if_neg (by simp)]
    rw [Vec2.mk.injEq, fin_inj, fin_inj]
    constructor
    · ring
    · have h1 : (1 : ℝ) - 0 * 0 = 1 := by norm_num
      rw [h1, Real.sqrt_one]
      ring
  · have hsq : (a * Real.cos M) * (a * Real.cos M) +
        (a * Real.sin M) * (a * Real.sin M) =
        a ^ 2 * (Real.sin M ^ 2 + Real.cos M ^ 2) := by ring
    rw [hsq, Real.sin_sq_add_cos_sq, mul_one, Real.sqrt_sq ha.le]

/-- Witness for C6 at `a = 2`, `M = 0`. -/
theorem C6_circular_witness :
    solveKeplersEquation (.fin 0) (.fin 0) = .fin 0 ∧
      calculateOrbitalPosition ⟨.fin 2, .fin 0, .fin 1⟩ (.fin 0) =
        ⟨.fin (2 * Real.cos 0), .fin (2 * Real.sin 0)⟩ ∧
      Real.sqrt ((2 * Real.cos 0) * (2 * Real.cos 0) +
        (2 * Real.sin 0) * (2 * Real.sin 0)) = 2 :=
  C6_circular 2 0 (.fin 1) (by norm_num)

/-- C9: a NaN mean anomaly or eccentricity makes the solver return 0
immediately; a non-NaN eccentricity outside `[0, 1)` is clamped to a finite
value in `[0, 0.99]` before the Newton-Raphson loop, which always runs on the
clamped eccentricity. -/
theorem C9_nan_guard_and_clamp (M e : JSNum) :
    (M.isNaN ∨ e.isNaN → solveKeplersEquation M e = .fin 0) ∧
      (¬ e.isNaN → (e < JSNum.fin 0 ∨ JSNum.fin 1 ≤ e) →
        ∃ x : ℝ, clampEcc e = .fin x ∧ 0 ≤ x ∧ x ≤ 0.99) ∧
      (¬ M.isNaN → ¬ e.isNaN →
        solveKeplersEquation M e =
          kepLoop M (clampEcc e) (.fin 1e-6) M (.fin 1) 100) := by
  refine ⟨fun h => ?_, fun hnan hout => ?_, fun h1 h2 => ?_⟩
  · rw [solveKeplersEquation, if_pos h]
  · cases e with
    | nan => exact absurd trivial hnan
    | inf =>
      refine ⟨0.99, ?_, by norm_num, by norm_num⟩
      rw [clampEcc, if_pos hout]
      show JSNum.max (.fin 0) (.fin 0.99) = .fin 0.99
      rw [show JSNum.max (.fin 0) (.fin 0.99) = .fin (Max.max 0 0.99) from rfl]
      rw [fin_inj]
      exact max_eq_right (by norm_num)
    | ninf =>
      refine ⟨0, ?_, le_rfl, by norm_num⟩
      rw [clampEcc, if_pos hout]
      rfl
    | fin v =>
      refine ⟨Max.max 0 (Min.min 0.99 v), ?_, le_max_left _ _,
        max_le (by norm_num) (min_le_left _ _)⟩
      rw [clampEcc, if_pos hout]
      rfl
  · rw [solveKeplersEquation, if_neg (by rintro (h | h) <;> [exact h1 h; exact h2 h])]

/-- Witness for C9 at `e = 1.5` (the spec's invalid-eccentricity scenario)
and at a NaN mean anomaly. -/
theorem C9_nan_guard_and_clamp_witness :
    solveKeplersEquation .nan (.fin 1) = .fin 0 ∧
      ∃ x : ℝ, clampEcc (.fin 1.5) = .fin x ∧ 0 ≤ x ∧ x ≤ 0.99 := by
  constructor
  · exact (C9_nan_guard_and_clamp .nan (.fin 1)).1 (Or.inl trivial)
  · exact (C9_nan_guard_and_clamp (.fin 0) (.fin 1.5)).2.1 (by simp)
      (Or.inr (by norm_num))

/-- C8: the update tick is a no-op, leaving the simulation time and every
body's position, velocity, mean anomaly and trail unchanged, when the clock
is paused or the time delta is NaN or infinite. -/
theorem C8_update_noop (st : SimState) (d : JSNum)
    (h : st.isPaused = true ∨ ¬ d.isFinite) : update st d = st := by
  rw [update]
  rcases h with h | h
  · rw [if_pos h]
  · by_cases hp : st.isPaused = true
    · rw [if_pos hp]
    · rw [if_neg hp, if_pos (Or.inl h)]

/-- Witness for C8: a paused state, and an unpaused state fed `NaN` and
`Infinity` deltas, are all left unchanged. -/
theorem C8_update_noop_witness :
    update ⟨.fin 1, .fin 0, true, false, 100, []⟩ (.fin 1) =
        ⟨.fin 1, .fin 0, true, false, 100, []⟩ ∧
      update ⟨.fin 1, .fin 0, false, false, 100, []⟩ .nan =
        ⟨.fin 1, .fin 0, false, false, 100, []⟩ ∧
      update ⟨.fin 1, .fin 0, false, false, 100, []⟩ .inf =
        ⟨.fin 1, .fin 0, false, false, 100, []⟩ :=
  ⟨C8_update_noop _ _ (Or.inl rfl), C8_update_noop _ _ (Or.inr (by simp)),
    C8_update_noop _ _ (Or.inr (by simp))⟩

/-- C10: every body successfully initialized by `initializePlanets` (at
construction or reset) has velocity exactly `(0, 0)`; initialization computes
a position from the mean anomaly but never a velocity. -/
theorem C10_init_velocity_zero (t : JSNum) (ps : List Planet) (b : BodyState)
    (hb : b ∈ initializePlanets t ps) : b.velocity = ⟨.fin 0, .fin 0⟩ := by
  rw [initializePlanets, List.mem_filterMap] at hb
  obtain ⟨p, -, hp⟩ := hb
  simp only [initPlanetState] at hp
  split_ifs at hp
  all_goals (cases hp; rfl)

/-- A finite JavaScript number carries a real value. -/
theorem isFinite_exists {a : JSNum} (h : a.isFinite) : ∃ x : ℝ, a = .fin x := by
  cases a with
  | fin x => exact ⟨x, rfl⟩
  | nan => exact absurd h (by simp)
  | inf => exact absurd h (by simp)
  | ninf => exact absurd h (by simp)

/-- A JavaScript number is truthy exactly when it is neither NaN nor zero. -/
theorem truthy_iff (a : JSNum) : a.truthy ↔ ¬ (a.isNaN ∨ a = .fin 0) := by
  cases a <;> simp

/-- With a valid eccentricity but an infinite mean anomaly, the Newton
iteration turns the eccentric anomaly into NaN on its first step and the
solver returns NaN. -/
theorem solve_nonfinite_M {e : ℝ} (he0 : 0 ≤ e) (he1 : e < 1) (M : JSNum)
    (hM : M = JSNum.inf ∨ M = JSNum.ninf) :
    solveKeplersEquation M (.fin e) = .nan := by
  have h100 : (100 : ℕ) = 99 + 1 := rfl
  rcases hM with hM | hM <;> subst hM <;>
    rw [solveKeplersEquation, if_neg (by simp), clampEcc_valid he0 he1,
      h100, kepLoop_step _ _ _ _ _ _ (by simp; norm_num)] <;>
    simp only [cos_inf, cos_ninf, mul_nan, sub_nan, abs_nan] <;>
    rw [if_neg (by simp)] <;>
    simp only [sin_inf, sin_ninf, mul_nan, sub_nan, nan_sub, nan_div] <;>
    exact kepLoop_exit _ _ _ _ _ _ (by simp)

/-- C4 counterexample: at the invalid (negative, hence truthy) semi-major
axis `-5`, validation fails and the fallback is `(-5, 0)`, not the `(1, 0)`
the claim prescribes for an invalid semi-major axis. -/
theorem C4_counterexample :
    calculateOrbitalPosition ⟨.fin (-5), .fin 0.5, .fin 1⟩ (.fin 0) =
        ⟨.fin (-5), .fin 0⟩ ∧
      calculateOrbitalPosition ⟨.fin (-5), .fin 0.5, .fin 1⟩ (.fin 0) ≠
        ⟨.fin 1, .fin 0⟩ := by
  have h : calculateOrbitalPosition ⟨.fin (-5), .fin 0.5, .fin 1⟩ (.fin 0) =
      ⟨.fin (-5), .fin 0⟩ := by
    rw [calculateOrbitalPosition]
    rw [if_pos (by simp)]
    rw [fallbackPos, if_pos (by simp)]
  refine ⟨h, ?_⟩
  rw [h]
  intro hcontra
  rw [Vec2.mk.injEq, fin_inj] at hcontra
  norm_num at hcontra

/-- C4, amended: on any validation failure (NaN or non-positive semi-major
axis, eccentricity outside `[0, 1)`, non-finite mean anomaly) the function
returns the fallback `(semiMajorAxis, 0)`; the x-coordinate is replaced by 1
exactly when the semi-major axis is NaN or zero (JavaScript falsiness), not
whenever it is invalid. -/
theorem C4_validation_fallback (p : Planet) (M : JSNum)
    (h : p.semiMajorAxis.isNaN ∨ p.semiMajorAxis ≤ JSNum.fin 0 ∨
      p.eccentricity.isNaN ∨ p.eccentricity < JSNum.fin 0 ∨
      JSNum.fin 1 ≤ p.eccentricity ∨ ¬ M.isFinite) :
    calculateOrbitalPosition p M = fallbackPos p ∧
      ((p.semiMajorAxis.isNaN ∨ p.semiMajorAxis = .fin 0) →
        fallbackPos p = ⟨.fin 1, .fin 0⟩) ∧
      (¬ p.semiMajorAxis.isNaN → p.semiMajorAxis ≠ .fin 0 →
        fallbackPos p = ⟨p.semiMajorAxis, .fin 0⟩) := by
  refine ⟨?_, ?_, ?_⟩
  · by_cases h1 : p.semiMajorAxis.isNaN ∨ p.semiMajorAxis ≤ JSNum.fin 0
    · rw [calculateOrbitalPosition, if_pos h1]
    · by_cases h2 : p.eccentricity.isNaN ∨ p.eccentricity < JSNum.fin 0 ∨
          JSNum.fin 1 ≤ p.eccentricity
      · rw [calculateOrbitalPosition, if_neg h1, if_pos h2]
      · by_cases h3 : M.isNaN
        · rw [calculateOrbitalPosition, if_neg h1, if_neg h2, if_pos h3]
        · have hMinf : M = JSNum.inf ∨ M = JSNum.ninf := by
            cases M with
            | nan => exact absurd trivial h3
            | inf => exact Or.inl rfl
            | ninf => exact Or.inr rfl
            | fin x =>
              rcases h with h | h | h | h | h | h
              all_goals first
                | (exact absurd (Or.inl h) h1)
                | (exact absurd (Or.inr h) h1)
                | (exact absurd (Or.inl h) h2)
                | (exact absurd (Or.inr (Or.inl h)) h2)
                | (exact absurd (Or.inr (Or.inr h)) h2)
                | (exact absurd trivial h)
          obtain ⟨v, hv, hv0, hv1⟩ :
              ∃ v : ℝ, p.eccentricity = .fin v ∧ 0 ≤ v ∧ v < 1 := by
            cases he : p.eccentricity with
            | nan => rw [he] at h2; exact absurd (Or.inl trivial) h2
            | inf => rw [he] at h2; exact absurd (Or.inr (Or.inr trivial)) h2
            | ninf => rw [he] at h2; exact absurd (Or.inr (Or.inl trivial)) h2
            | fin v =>
              rw [he] at h2
              simp only [isNaN_fin, fin_lt_fin, fin_le_fin, not_or, not_lt,
                not_le] at h2
              exact ⟨v, rfl, by simpa using h2.2.1, by simpa using h2.2.2⟩
          rw [calculateOrbitalPosition, if_neg h1, if_neg h2, if_neg h3, hv]
          rw [solve_nonfinite_M hv0 hv1 M hMinf]
          simp only [cos_nan, sin_nan, mul_nan, sub_nan, nan_sub]
          rw [if_pos (by simp)]
  · intro hzero
    rw [fallbackPos, if_neg (fun ht => (truthy_iff _).mp ht hzero)]
  · intro hnan hzero
    rw [fallbackPos, if_pos ((truthy_iff _).mpr (by
      rintro (h | h)
      · exact hnan h
      · exact hzero h))]

/-! ### Finiteness of stored state -/

/-- Both components of a stored vector are finite. -/
def finiteVec (v : Vec2) : Prop := v.x.isFinite ∧ v.y.isFinite

/-- The per-body invariant: a finite configured semi-major axis and finite
stored position and velocity. -/
def bodyInv (b : BodyState) : Prop :=
  b.data.semiMajorAxis.isFinite ∧ finiteVec b.position ∧ finiteVec b.velocity

theorem fallback_finite (p : Planet) (ha : p.semiMajorAxis.isFinite) :
    finiteVec (fallbackPos p) := by
  rw [fallbackPos]
  refine ⟨?_, trivial⟩
  by_cases ht : p.semiMajorAxis.truthy
  · rw [if_pos ht]
    exact ha
  · rw [if_neg ht]
    trivial

/-- As long as the configured semi-major axis is finite,
`calculateOrbitalPosition` only returns finite coordinates: the main path is
guarded by an explicit finiteness post-check and the fallback echoes the
semi-major axis. -/
theorem pos_finite (p : Planet) (M : JSNum) (ha : p.semiMajorAxis.isFinite) :
    finiteVec (calculateOrbitalPosition p M) := by
  simp only [calculateOrbitalPosition]
  split_ifs with h1 h2 h3 h4
  · exact fallback_finite p ha
  · exact fallback_finite p ha
  · exact fallback_finite p ha
  · exact fallback_finite p ha
  · push_neg at h4
    exact ⟨h4.1, h4.2⟩

/-- `calculateOrbitalVelocity` always returns a finite scalar speed. -/
theorem vel_finite (p : Planet) (pos : Vec2) :
    (calculateOrbitalVelocity p pos).isFinite := by
  simp only [calculateOrbitalVelocity]
  split_ifs with h1 h2 h3
  · trivial
  · trivial
  · obtain ⟨x, hx⟩ := isFinite_exists h3
    rw [hx, fin_div_fin x (by norm_num : (1000 : ℝ) ≠ 0)]
    trivial
  · trivial

/-- The tangential-velocity branch of `update` stores a finite vector: it
either divides finite coordinates by a positive finite radius or keeps the
previous (finite) velocity. -/
theorem velPart_finite (pos old : Vec2) (vmag : JSNum) (hpos : finiteVec pos)
    (hold : finiteVec old) (hvm : vmag.isFinite) :
    finiteVec (if JSNum.fin 0 < (pos.x * pos.x + pos.y * pos.y).sqrt then
      Vec2.mk (-pos.y / (pos.x * pos.x + pos.y * pos.y).sqrt * vmag)
        (pos.x / (pos.x * pos.x + pos.y * pos.y).sqrt * vmag)
      else old) := by
  obtain ⟨px, hpx⟩ := isFinite_exists hpos.1
  obtain ⟨py, hpy⟩ := isFinite_exists hpos.2
  obtain ⟨vm, hvm2⟩ := isFinite_exists hvm
  rw [hpx, hpy, hvm2]
  simp only [fin_mul_fin, fin_add_fin, neg_fin]
  rw [sqrt_fin (add_nonneg (mul_self_nonneg px) (mul_self_nonneg py))]
  by_cases hr : (0 : ℝ) < Real.sqrt (px * px + py * py)
  · rw [if_pos (show JSNum.fin 0 < JSNum.fin (Real.sqrt (px * px + py * py))
      from hr)]
    rw [fin_div_fin _ (ne_of_gt hr), fin_div_fin _ (ne_of_gt hr)]
    simp only [fin_mul_fin]
    exact ⟨trivial, trivial⟩
  · rw [if_neg (show ¬ JSNum.fin 0 < JSNum.fin (Real.sqrt (px * px + py * py))
      from hr)]
    exact hold

/-- One `update` pass over a body preserves the finiteness invariant. -/
theorem updateBody_inv (t : JSNum) (m : ℕ) (sh : Bool) (b : BodyState)
    (hb : bodyInv b) : bodyInv (updateBody t m sh b) := by
  obtain ⟨ha, hpos, hvel⟩ := hb
  simp only [updateBody]
  by_cases hskip : b.data.period * JSNum.fin 365.25 ≤ JSNum.fin 0 ∨
      ¬ (b.data.period * JSNum.fin 365.25).isFinite
  · rw [if_pos hskip]
    exact ⟨ha, hpos, hvel⟩
  · rw [if_neg hskip]
    exact ⟨ha, pos_finite _ _ ha, velPart_finite _ _ _ (pos_finite _ _ ha)
      hvel (vel_finite _ _)⟩

/-- One `update` tick preserves the invariant on every body. -/
theorem update_inv (st : SimState) (d : JSNum)
    (h : ∀ b ∈ st.bodies, bodyInv b) : ∀ b ∈ (update st d).bodies, bodyInv b := by
  rw [update]
  split_ifs with h1 h2
  · exact h
  · exact h
  · intro b hb
    simp only [List.mem_map] at hb
    obtain ⟨b0, hb0, rfl⟩ := hb
    exact updateBody_inv _ _ _ _ (h b0 hb0)

/-- Any number of `update` ticks preserves the invariant on every body. -/
theorem iterate_inv (d : JSNum) (N : ℕ) : ∀ st : SimState,
    (∀ b ∈ st.bodies, bodyInv b) →
    ∀ b ∈ ((fun s => update s d)^[N] st).bodies, bodyInv b := by
  induction N with
  | zero => intro st h; simpa using h
  | succ n ih =>
    intro st h
    rw [Function.iterate_succ_apply]
    exact ih _ (update_inv st d h)

/-- C3 counterexample: a body whose configured semi-major axis is `Infinity`
passes validation (`Infinity > 0` holds in JavaScript), the computed
coordinates are non-finite, and the fallback `semiMajorAxis || 1` stores the
position `(Infinity, 0)`: initialization produces a reachable state whose
stored position is not finite. -/
theorem C3_counterexample :
    ∃ b, initPlanetState (.fin 0) ⟨.inf, .fin 0, .fin 1⟩ = some b ∧
      b.position = ⟨.inf, .fin 0⟩ ∧ ¬ b.position.x.isFinite := by
  have hpos : (mkBody ⟨.inf, .fin 0, .fin 1⟩ (.fin 0)).position =
      ⟨.inf, .fin 0⟩ := by
    show calculateOrbitalPosition _ _ = _
    rw [calculateOrbitalPosition]
    rw [if_neg (by simp)]
    rw [if_neg (by simp)]
    rw [if_neg (by simp)]
    rw [solve_at_M_zero le_rfl (by norm_num)]
    simp only [cos_fin, sin_fin, fin_sub_fin, fin_mul_fin]
    rw [show Real.cos 0 - 0 = 1 by simp]
    rw [inf_mul_fin_pos one_pos]
    rw [show (1 : ℝ) - 0 * 0 = 1 by norm_num, sqrt_fin (by norm_num),
      Real.sqrt_one, inf_mul_fin_pos one_pos, Real.sin_zero,
      inf_mul_fin_zero]
    rw [if_pos (by simp)]
    rw [fallbackPos, if_pos (by simp)]
  refine ⟨mkBody ⟨.inf, .fin 0, .fin 1⟩ (.fin 0), ?_, hpos, ?_⟩
  · rw [initPlanetState, if_neg (by simp), if_neg (by simp)]
  · rw [hpos]
    simp

/-- C3, amended: provided each body's configured semi-major axis is finite,
every state reachable through initialization and update ticks stores only
finite position and velocity components (invalid intermediate results are
replaced by the fallback or by the last-known velocity).  With an infinite
semi-major axis the fallback itself stores `Infinity` (see the
counterexample). -/
theorem C3_finite_state_invariant :
    (∀ (t : JSNum) (p : Planet) (b : BodyState), p.semiMajorAxis.isFinite →
      initPlanetState t p = some b → bodyInv b) ∧
    (∀ (st : SimState) (d : JSNum) (N : ℕ), (∀ b ∈ st.bodies, bodyInv b) →
      ∀ b ∈ ((fun s => update s d)^[N] st).bodies,
        finiteVec b.position ∧ finiteVec b.velocity) := by
  constructor
  · intro t p b ha hinit
    simp only [initPlanetState] at hinit
    split_ifs at hinit
    all_goals (cases hinit)
    all_goals exact ⟨ha, pos_finite _ _ ha, trivial, trivial⟩
  · intro st d N h b hb
    exact ((iterate_inv d N st h) b hb).2

/-- Witness for C3 on a finite one-planet configuration: the initialized body
and the body after one update tick both carry only finite state. -/
theorem C3_finite_state_invariant_witness :
    bodyInv (mkBody ⟨.fin 1, .fin 0, .fin 1⟩ (.fin 0)) ∧
      (finiteVec ((updateBody (.fin 0 + .fin 1 * .fin 1) 100 false
          ⟨⟨.fin 1, .fin 0, .fin 1⟩, .fin 0, ⟨.fin 1, .fin 0⟩,
            ⟨.fin 0, .fin 0⟩, []⟩).position) ∧
        finiteVec ((updateBody (.fin 0 + .fin 1 * .fin 1) 100 false
          ⟨⟨.fin 1, .fin 0, .fin 1⟩, .fin 0, ⟨.fin 1, .fin 0⟩,
            ⟨.fin 0, .fin 0⟩, []⟩).velocity)) := by
  constructor
  · refine C3_finite_state_invariant.1 (.fin 0) ⟨.fin 1, .fin 0, .fin 1⟩ _
      trivial ?_
    rw [initPlanetState, if_neg (by simp), if_neg (by simp)]
  · refine C3_finite_state_invariant.2
      ⟨.fin 1, .fin 0, false, false, 100,
        [⟨⟨.fin 1, .fin 0, .fin 1⟩, .fin 0, ⟨.fin 1, .fin 0⟩,
          ⟨.fin 0, .fin 0⟩, []⟩]⟩ (.fin 1) 1 ?_ _ ?_
    · intro b hb
      rw [List.mem_singleton] at hb
      subst hb
      exact ⟨trivial, ⟨trivial, trivial⟩, ⟨trivial, trivial⟩⟩
    · rw [Function.iterate_one]
      rw [update, if_neg (by simp), if_neg (by simp)]
      simp only [List.map_cons, List.map_nil]
      exact List.mem_singleton.mpr rfl

/-- Witness for C4 at `a = 0` (falsy): the fallback is `(1, 0)`. -/
theorem C4_validation_fallback_witness :
    calculateOrbitalPosition ⟨.fin 0, .fin 0.5, .fin 1⟩ (.fin 0) =
      ⟨.fin 1, .fin 0⟩ := by
  have h := C4_validation_fallback ⟨.fin 0, .fin 0.5, .fin 1⟩ (.fin 0)
    (Or.inr (Or.inl (by simp)))
  exact h.1.trans (h.2.1 (Or.inr rfl))

/-- Evaluation of the vis-viva speed at a finite position `(x, 0)` on the
x-axis, for a positive finite semi-major axis. -/
theorem calcVel_on_axis (a e : ℝ) (per : JSNum) (x : ℝ) (ha : 0 < a)
    (hx : x ≠ 0) :
    calculateOrbitalVelocity ⟨.fin a, .fin e, per⟩ ⟨.fin x, .fin 0⟩ =
      .fin (Real.sqrt |(6.67430e-11 : ℝ) * 1.989e30 *
        (2 / (|x| * 1.496e11) - 1 / (a * 1.496e11))| / 1000) := by
  have habs : 0 < |x| := abs_pos.mpr hx
  simp only [calculateOrbitalVelocity, G, AU, SOLAR_MASS]
  simp only [fin_mul_fin, fin_add_fin]
  rw [sqrt_fin (by nlinarith [mul_self_nonneg x])]
  rw [show x * x + 0 * 0 = x ^ 2 by ring, Real.sqrt_sq_eq_abs]
  simp only [fin_mul_fin]
  rw [if_neg (show ¬ (JSNum.fin (|x| * 1.496e11) ≤ JSNum.fin 0 ∨
      ¬ (JSNum.fin (|x| * 1.496e11)).isFinite) from by
    simp only [fin_le_fin, isFinite_fin, not_true, or_false, not_le]
    nlinarith)]
  rw [if_neg (show ¬ (JSNum.fin (a * 1.496e11) ≤ JSNum.fin 0 ∨
      ¬ (JSNum.fin (a * 1.496e11)).isFinite) from by
    simp only [fin_le_fin, isFinite_fin, not_true, or_false, not_le]
    nlinarith)]
  rw [fin_div_fin _ (by nlinarith : |x| * 1.496e11 ≠ 0)]
  rw [fin_div_fin _ (by nlinarith : a * 1.496e11 ≠ 0)]
  simp only [fin_mul_fin, fin_sub_fin, abs_fin]
  rw [sqrt_fin (abs_nonneg _)]
  rw [if_neg (by simp)]
  rw [fin_div_fin _ (by norm_num : (1000 : ℝ) ≠ 0)]

/-- C7: for valid orbital elements with eccentricity `e > 0`, the vis-viva
speed at the perihelion point `(a(1-e), 0)` strictly exceeds the speed at the
aphelion point `(-a(1+e), 0)`. -/
theorem C7_perihelion_faster (a e : ℝ) (per : JSNum) (ha : 0 < a)
    (he0 : 0 < e) (he1 : e < 1) :
    ∃ vp va : ℝ,
      calculateOrbitalVelocity ⟨.fin a, .fin e, per⟩
          ⟨.fin (a * (1 - e)), .fin 0⟩ = .fin vp ∧
        calculateOrbitalVelocity ⟨.fin a, .fin e, per⟩
          ⟨.fin (-(a * (1 + e))), .fin 0⟩ = .fin va ∧
        va < vp := by
  have hrp : (0 : ℝ) < a * (1 - e) := by nlinarith
  have hra : (0 : ℝ) < a * (1 + e) := by nlinarith
  have hp := calcVel_on_axis a e per (a * (1 - e)) ha (ne_of_gt hrp)
  have hq := calcVel_on_axis a e per (-(a * (1 + e))) ha
    (by intro h0; nlinarith [neg_eq_zero.mp h0])
  rw [abs_of_pos hrp] at hp
  rw [abs_neg, abs_of_pos hra] at hq
  refine ⟨_, _, hp, hq, ?_⟩
  have hc : (0 : ℝ) < 1.496e11 := by norm_num
  have h1 : (0 : ℝ) < a * (1 - e) * 1.496e11 := by positivity
  have h2 : (0 : ℝ) < a * (1 + e) * 1.496e11 := by positivity
  have h3 : (0 : ℝ) < a * 1.496e11 := by positivity
  have hK : (0 : ℝ) < 6.67430e-11 * 1.989e30 := by norm_num
  have hTa : (0 : ℝ) < 2 / (a * (1 + e) * 1.496e11) - 1 / (a * 1.496e11) := by
    rw [sub_pos, div_lt_div_iff₀ h3 h2]
    nlinarith
  have hTT : 2 / (a * (1 + e) * 1.496e11) - 1 / (a * 1.496e11) <
      2 / (a * (1 - e) * 1.496e11) - 1 / (a * 1.496e11) := by
    rw [sub_lt_sub_iff_right, div_lt_div_iff₀ h2 h1]
    nlinarith
  have hVa : (0 : ℝ) < 6.67430e-11 * 1.989e30 *
      (2 / (a * (1 + e) * 1.496e11) - 1 / (a * 1.496e11)) := mul_pos hK hTa
  have hVV : 6.67430e-11 * 1.989e30 *
        (2 / (a * (1 + e) * 1.496e11) - 1 / (a * 1.496e11)) <
      6.67430e-11 * 1.989e30 *
        (2 / (a * (1 - e) * 1.496e11) - 1 / (a * 1.496e11)) :=
    mul_lt_mul_of_pos_left hTT hK
  rw [abs_of_pos hVa, abs_of_pos (lt_trans hVa hVV)]
  have hs := Real.sqrt_lt_sqrt (le_of_lt hVa) hVV
  linarith

/-- Witness for C7 at `a = 1`, `e = 0.5`. -/
theorem C7_perihelion_faster_witness :
    ∃ vp va : ℝ,
      calculateOrbitalVelocity ⟨.fin 1, .fin 0.5, .fin 1⟩
          ⟨.fin (1 * (1 - 0.5)), .fin 0⟩ = .fin vp ∧
        calculateOrbitalVelocity ⟨.fin 1, .fin 0.5, .fin 1⟩
          ⟨.fin (-(1 * (1 + 0.5))), .fin 0⟩ = .fin va ∧
        va < vp :=
  C7_perihelion_faster 1 0.5 (.fin 1) (by norm_num) (by norm_num) (by norm_num)

/-! ### Trail-buffer bookkeeping -/

/-- The simulated-time trajectory under repeated unpaused updates. -/
def timeIter (d spd : JSNum) : JSNum → ℕ → JSNum
  | t, 0 => t
  | t, n + 1 => timeIter d spd (t + d * spd) n

/-- The trajectory of a single body under repeated unpaused updates. -/
def bodyTraj (d spd : JSNum) (m : ℕ) (sh : Bool) : JSNum → BodyState → ℕ → BodyState
  | _, b, 0 => b
  | t, b, n + 1 =>
    bodyTraj d spd m sh (t + d * spd) (updateBody (t + d * spd) m sh b) n

/-- The chronological list of positions a body's updates store, one per
tick. -/
def trajPositions (d spd : JSNum) (m : ℕ) (sh : Bool) : JSNum → BodyState → ℕ → List Vec2
  | _, _, 0 => []
  | t, b, n + 1 =>
    (updateBody (t + d * spd) m sh b).position ::
      trajPositions d spd m sh (t + d * spd) (updateBody (t + d * spd) m sh b) n

theorem bodyTraj_zero (d spd : JSNum) (m : ℕ) (sh : Bool) (t : JSNum)
    (b : BodyState) : bodyTraj d spd m sh t b 0 = b := rfl

theorem bodyTraj_succ (d spd : JSNum) (m : ℕ) (sh : Bool) (t : JSNum)
    (b : BodyState) (n : ℕ) :
    bodyTraj d spd m sh t b (n + 1) =
      bodyTraj d spd m sh (t + d * spd) (updateBody (t + d * spd) m sh b) n :=
  rfl

theorem trajPositions_zero (d spd : JSNum) (m : ℕ) (sh : Bool) (t : JSNum)
    (b : BodyState) : trajPositions d spd m sh t b 0 = [] := rfl

theorem trajPositions_succ (d spd : JSNum) (m : ℕ) (sh : Bool) (t : JSNum)
    (b : BodyState) (n : ℕ) :
    trajPositions d spd m sh t b (n + 1) =
      (updateBody (t + d * spd) m sh b).position ::
        trajPositions d spd m sh (t + d * spd)
          (updateBody (t + d * spd) m sh b) n :=
  rfl

theorem updateBody_data (t : JSNum) (m : ℕ) (sh : Bool) (b : BodyState) :
    (updateBody t m sh b).data = b.data := by
  simp only [updateBody]
  split_ifs <;> rfl

theorem updateBody_trail (t : JSNum) (m : ℕ) (b : BodyState)
    (hper : ¬ (b.data.period * JSNum.fin 365.25 ≤ JSNum.fin 0 ∨
      ¬ (b.data.period * JSNum.fin 365.25).isFinite)) :
    (updateBody t m true b).trail =
      trailStep m b.trail ((updateBody t m true b).position) := by
  simp only [updateBody]
  rw [if_neg hper]
  rfl

/-- The trail after a push-and-shift is the length-`m` suffix of the pushed
history. -/
theorem trailStep_eq_drop (m : ℕ) (T : List Vec2) (p : Vec2)
    (h : T.length ≤ m) :
    trailStep m T p = (T ++ [p]).drop ((T.length + 1) - m) := by
  rw [trailStep]
  split_ifs with hl
  · rw [List.length_append, List.length_singleton] at hl
    rw [show T.length + 1 - m = 1 by omega, ← List.drop_one]
  · rw [List.length_append, List.length_singleton] at hl
    rw [show T.length + 1 - m = 0 by omega, List.drop_zero]

theorem trailStep_length_le (m : ℕ) (T : List Vec2) (p : Vec2)
    (h : T.length ≤ m) : (trailStep m T p).length ≤ m := by
  rw [trailStep_eq_drop m T p h, List.length_drop, List.length_append,
    List.length_singleton]
  omega

theorem updateBody_trail_len (t : JSNum) (m : ℕ) (sh : Bool) (b : BodyState)
    (h : b.trail.length ≤ m) : (updateBody t m sh b).trail.length ≤ m := by
  simp only [updateBody]
  split_ifs
  all_goals first
    | exact h
    | exact trailStep_length_le m b.trail _ h
    | simp

/-- Pushing one position commutes with taking the bounded suffix of the full
chronological history. -/
theorem trail_fold_step (m n : ℕ) (T R : List Vec2) (p : Vec2)
    (h : T.length ≤ m) (hR : R.length = n) :
    (trailStep m T p ++ R).drop (((trailStep m T p).length + n) - m) =
      (T ++ p :: R).drop ((T.length + (n + 1)) - m) := by
  subst hR
  rw [trailStep_eq_drop m T p h, List.length_drop, List.length_append,
    List.length_singleton]
  have hk : T.length + 1 - m ≤ (T ++ [p]).length := by
    rw [List.length_append, List.length_singleton]
    omega
  rw [← List.drop_append_of_le_length hk]
  rw [List.drop_drop, List.append_assoc, List.singleton_append]
  congr 1
  omega

/-- Trail contents along a body trajectory with trails enabled: the trail is
always the bounded suffix of the chronological position history, and each
tick records exactly one position. -/
theorem bodyTraj_trail_spec (d spd : JSNum) (m : ℕ) :
    ∀ (N : ℕ) (t : JSNum) (b : BodyState),
    ¬ (b.data.period * JSNum.fin 365.25 ≤ JSNum.fin 0 ∨
      ¬ (b.data.period * JSNum.fin 365.25).isFinite) →
    b.trail.length ≤ m →
    (trajPositions d spd m true t b N).length = N ∧
    (bodyTraj d spd m true t b N).trail =
      (b.trail ++ trajPositions d spd m true t b N).drop
        ((b.trail.length + N) - m)
  | 0, t, b, hper, htr => by
    rw [bodyTraj_zero, trajPositions_zero]
    refine ⟨rfl, ?_⟩
    rw [List.append_nil, show b.trail.length + 0 - m = 0 by omega,
      List.drop_zero]
  | n + 1, t, b, hper, htr => by
    rw [bodyTraj_succ, trajPositions_succ]
    have hdata := updateBody_data (t + d * spd) m true b
    have hper2 : ¬ ((updateBody (t + d * spd) m true b).data.period *
        JSNum.fin 365.25 ≤ JSNum.fin 0 ∨
        ¬ ((updateBody (t + d * spd) m true b).data.period *
          JSNum.fin 365.25).isFinite) := by
      rw [hdata]; exact hper
    have hlen2 : (updateBody (t + d * spd) m true b).trail.length ≤ m :=
      updateBody_trail_len _ _ _ _ htr
    obtain ⟨ihlen, ihtrail⟩ := bodyTraj_trail_spec d spd m n (t + d * spd)
      (updateBody (t + d * spd) m true b) hper2 hlen2
    refine ⟨by rw [List.length_cons, ihlen], ?_⟩
    rw [ihtrail, updateBody_trail _ _ _ hper]
    exact trail_fold_step m n b.trail _ _ htr ihlen

/-- One unpaused update with a finite delta, unfolded. -/
theorem update_unfold (st : SimState) (d : JSNum) (hP : st.isPaused = false)
    (hd : d.isFinite) :
    update st d = { st with
      currentTime := st.currentTime + d * st.timeSpeed,
      bodies := st.bodies.map (updateBody (st.currentTime + d * st.timeSpeed)
        st.maxTrailLength st.showTrails) } := by
  obtain ⟨x, hx⟩ := isFinite_exists hd
  rw [update, if_neg (by simp [hP]), if_neg (by rw [hx]; simp)]

/-- `N` unpaused updates with a finite delta decompose into independent
per-body trajectories. -/
theorem iterate_decomp (d : JSNum) (N : ℕ) : ∀ st : SimState,
    st.isPaused = false → d.isFinite →
    (fun s => update s d)^[N] st = { st with
      currentTime := timeIter d st.timeSpeed st.currentTime N,
      bodies := st.bodies.map (fun b => bodyTraj d st.timeSpeed
        st.maxTrailLength st.showTrails st.currentTime b N) } := by
  induction N with
  | zero =>
    intro st hP hd
    show st = _
    rw [show timeIter d st.timeSpeed st.currentTime 0 = st.currentTime from
      rfl]
    rw [show st.bodies.map (fun b => bodyTraj d st.timeSpeed st.maxTrailLength
      st.showTrails st.currentTime b 0) = st.bodies.map (fun b => b) from rfl]
    rw [List.map_id']
  | succ n ih =>
    intro st hP hd
    rw [Function.iterate_succ_apply]
    show (fun s => update s d)^[n] (update st d) = _
    rw [update_unfold st d hP hd]
    rw [ih { st with
      currentTime := st.currentTime + d * st.timeSpeed,
      bodies := st.bodies.map (updateBody (st.currentTime + d * st.timeSpeed)
        st.maxTrailLength st.showTrails) } (by exact hP) hd]
    rw [List.map_map]
    rfl

theorem update_maxTrailLength (st : SimState) (d : JSNum) :
    (update st d).maxTrailLength = st.maxTrailLength := by
  rw [update]
  split_ifs <;> rfl

theorem iterate_max (d : JSNum) (N : ℕ) (st : SimState) :
    ((fun s => update s d)^[N] st).maxTrailLength = st.maxTrailLength := by
  induction N with
  | zero => rfl
  | succ n ihn =>
    rw [Function.iterate_succ_apply']
    show (update ((fun s => update s d)^[n] st) d).maxTrailLength = _
    rw [update_maxTrailLength, ihn]

/-- C5: the trail buffer never exceeds `maxTrailLength`, and after
`N > maxTrailLength` unpaused updates with trails enabled, a body with a
valid period has a trail of length exactly `maxTrailLength` holding the most
recent positions in chronological order (oldest evicted first). -/
theorem C5_trail_bound_fifo :
    (∀ (st : SimState) (d : JSNum) (N : ℕ) (b : BodyState),
      (∀ b0 ∈ st.bodies, b0.trail.length ≤ st.maxTrailLength) →
      b ∈ ((fun s => update s d)^[N] st).bodies →
      b.trail.length ≤ st.maxTrailLength) ∧
    (∀ (st : SimState) (d : JSNum) (j : ℕ) (b0 : BodyState) (N : ℕ),
      st.isPaused = false → st.showTrails = true → d.isFinite →
      st.bodies[j]? = some b0 → b0.trail = [] →
      ¬ (b0.data.period * JSNum.fin 365.25 ≤ JSNum.fin 0 ∨
        ¬ (b0.data.period * JSNum.fin 365.25).isFinite) →
      st.maxTrailLength < N →
      ∃ b, ((fun s => update s d)^[N] st).bodies[j]? = some b ∧
        b.trail.length = st.maxTrailLength ∧
        (trajPositions d st.timeSpeed st.maxTrailLength true
          st.currentTime b0 N).length = N ∧
        b.trail = (trajPositions d st.timeSpeed st.maxTrailLength true
          st.currentTime b0 N).drop (N - st.maxTrailLength)) := by
  constructor
  · intro st d N
    induction N with
    | zero =>
      intro b h hb
      exact h b (by simpa using hb)
    | succ n ihn =>
      intro b h hb
      rw [Function.iterate_succ_apply'] at hb
      rw [update] at hb
      split_ifs at hb
      · exact ihn b h hb
      · exact ihn b h hb
      · simp only [List.mem_map] at hb
        obtain ⟨b1, hb1, rfl⟩ := hb
        have hm := iterate_max d n st
        rw [← hm]
        exact updateBody_trail_len _ _ _ _ (by rw [hm]; exact ihn b1 h hb1)
  · intro st d j b0 N hP hsh hd hj htr0 hper hN
    rw [iterate_decomp d N st hP hd]
    refine ⟨bodyTraj d st.timeSpeed st.maxTrailLength st.showTrails
      st.currentTime b0 N, ?_, ?_, ?_, ?_⟩
    · show (st.bodies.map _)[j]? = _
      rw [List.getElem?_map, hj]
      rfl
    · rw [hsh]
      obtain ⟨hl, ht⟩ := bodyTraj_trail_spec d st.timeSpeed st.maxTrailLength
        N st.currentTime b0 hper (by rw [htr0]; simp)
      rw [ht, htr0, List.nil_append, List.length_nil, List.length_drop, hl]
      omega
    · exact (bodyTraj_trail_spec d st.timeSpeed st.maxTrailLength N
        st.currentTime b0 hper (by rw [htr0]; simp)).1
    · rw [hsh]
      obtain ⟨hl, ht⟩ := bodyTraj_trail_spec d st.timeSpeed st.maxTrailLength
        N st.currentTime b0 hper (by rw [htr0]; simp)
      rw [ht, htr0, List.nil_append, List.length_nil, Nat.zero_add]

/-- Witness for C5: a one-body state with `maxTrailLength = 1` after `N = 2`
updates. -/
theorem C5_trail_bound_fifo_witness :
    ∃ b, ((fun s => update s (.fin 1))^[2]
        ⟨.fin 1, .fin 0, false, true, 1,
          [⟨⟨.fin 1, .fin 0, .fin 1⟩, .fin 0, ⟨.fin 1, .fin 0⟩,
            ⟨.fin 0, .fin 0⟩, []⟩]⟩).bodies[0]? = some b ∧
      b.trail.length = 1 ∧
      (trajPositions (.fin 1) (.fin 1) 1 true (.fin 0)
        ⟨⟨.fin 1, .fin 0, .fin 1⟩, .fin 0, ⟨.fin 1, .fin 0⟩,
          ⟨.fin 0, .fin 0⟩, []⟩ 2).length = 2 ∧
      b.trail = (trajPositions (.fin 1) (.fin 1) 1 true (.fin 0)
        ⟨⟨.fin 1, .fin 0, .fin 1⟩, .fin 0, ⟨.fin 1, .fin 0⟩,
          ⟨.fin 0, .fin 0⟩, []⟩ 2).drop (2 - 1) := by
  exact C5_trail_bound_fifo.2
    ⟨.fin 1, .fin 0, false, true, 1,
      [⟨⟨.fin 1, .fin 0, .fin 1⟩, .fin 0, ⟨.fin 1, .fin 0⟩,
        ⟨.fin 0, .fin 0⟩, []⟩]⟩ (.fin 1) 0 _ 2 rfl rfl trivial rfl rfl
    (by simp; norm_num) (by norm_num)

/-- Witness for C10 on a one-planet configuration with period 1 and zero time
offset. -/
theorem C10_init_velocity_zero_witness :
    (mkBody ⟨.fin 1, .fin 0, .fin 1⟩ (.fin 0)).velocity =
      ⟨.fin 0, .fin 0⟩ := by
  refine C10_init_velocity_zero (.fin 0) [⟨.fin 1, .fin 0, .fin 1⟩] _ ?_
  rw [initializePlanets]
  rw [show List.filterMap (initPlanetState (.fin 0)) [⟨.fin 1, .fin 0, .fin 1⟩]
      = [mkBody ⟨.fin 1, .fin 0, .fin 1⟩ (.fin 0)] from ?_]
  · exact List.mem_singleton.mpr rfl
  · rw [List.filterMap]
    rw [initPlanetState]
    rw [if_neg (by simp), if_neg (by simp)]
    rfl

end Kepler
